import Mathlib

/-!
Shallow embedding of `src/api_handler.py` (the TICS client-side session
manager).  Each Python method is modelled as a pure function from the
handler state, the current clock reading(s) and the HTTP response it
would receive, to an `Outcome`: the list of HTTP requests the call sends,
the state after the call, and either a return value or the raised error.
-/

/-- Python truthiness of an optional string argument: `None` and `""` are falsy. -/
def truthy : Option String → Bool
  | none => false
  | some s => !s.isEmpty

/-- Python f-string rendering of a possibly-`None` attribute (`None` prints as "None"). -/
def pyStr : Option String → String
  | none => "None"
  | some s => s

/-- `default_url` from api_handler.py line 8, documented there as the default API URL. -/
def default_url : String := "127.0.0.1:8000"

/-- An HTTP request issued through the shared `requests.Session`: method, url,
JSON payload (modelled as its key-value pairs) and the session's
`Authorization` header at send time. -/
structure HttpRequest where
  method : String
  url : String
  body : List (String × String)
  authHeader : Option String
deriving Repr, DecidableEq

/-- An HTTP response as read by the handler: status code, the parsed JSON
fields the code accesses via `.get`, and the raw `text`. -/
structure HttpResponse where
  status : Int
  success : Bool
  token : String
  expires_in : Int
  username : String
  text : String
deriving Repr, DecidableEq

/-- The exceptions api_handler.py can raise: `ValueError` from `__init__`,
plain `Exception` with a message from the auth/refresh paths, and the
`AttributeError` Python raises when a never-assigned attribute is read. -/
inductive ApiError where
  | valueError (msg : String)
  | exception (msg : String)
  | attributeError (attr : String)
deriving Repr, DecidableEq

/-- The mutable state of an `APIHandler` instance.  Attributes that Python
only assigns on some paths (`api_key`, `username`, `password`, `token`,
`token_expiry`, `token_issue_time`) are `Option`s, `none` meaning unset;
`authHeader` is the session's `Authorization` default header. -/
structure APIHandler where
  base_url : Option String
  client_id : String
  authHeader : Option String
  api_key : Option String
  username : Option String
  password : Option String
  token : Option String
  token_expiry : Option Int
  token_issue_time : Option Int
deriving Repr, DecidableEq

/-- The dictionary `_authenticate` returns on success (api_handler.py lines 58-61). -/
structure AuthResult where
  username : String
  timeToExpire : Int
deriving Repr, DecidableEq

/-- Result of running one method: the requests it sent over the network, the
handler state afterwards, and the returned value or raised error. -/
structure Outcome (α : Type) where
  requests : List HttpRequest
  state : APIHandler
  result : Except ApiError α
deriving Repr

/-- The login request sent at api_handler.py line 48. -/
def loginRequest (st : APIHandler) (u p : String) : HttpRequest :=
  { method := "POST"
    url := pyStr st.base_url ++ "/auth/login"
    body := [("username", u), ("password", p),
             ("client_id", "tics-client-" ++ st.client_id)]
    authHeader := st.authHeader }

/-- `APIHandler._authenticate` (api_handler.py lines 30-70).  `now` models the
`time()` call at line 56 and `resp` the response to the login POST. -/
def APIHandler._authenticate (st : APIHandler) (u p : String) (now : Int)
    (resp : HttpResponse) : Outcome AuthResult :=
  let st1 := { st with username := some u, password := some p }
  let req := loginRequest st1 u p
  if resp.status = 200 then
    if resp.success then
      { requests := [req]
        state := { st1 with
          token := some resp.token
          token_expiry := some resp.expires_in
          token_issue_time := some now
          authHeader := some ("Bearer " ++ resp.token) }
        result := .ok { username := resp.username, timeToExpire := resp.expires_in } }
    else
      { requests := [req], state := st1
        result := .error (.exception "Authentication failed: API returned success=False.") }
  else
    { requests := [req], state := st1
      result := .error (.exception ("Authentication failed: " ++ toString resp.status)) }

/-- The state set up at api_handler.py lines 14-17, before identity dispatch. -/
def APIHandler.mkBase (base_url : Option String) (client_id : String) : APIHandler :=
  { base_url := base_url, client_id := client_id, authHeader := none,
    api_key := none, username := none, password := none,
    token := none, token_expiry := none, token_issue_time := none }

/-- `APIHandler.__init__` (api_handler.py lines 13-28).  `client_id` models the
random `os.urandom(6).hex()` value; `now` and `resp` feed the credential-path
login call. -/
def APIHandler.init (base_url username password api_key : Option String)
    (client_id : String) (now : Int) (resp : HttpResponse) : Outcome Unit :=
  let st := APIHandler.mkBase base_url client_id
  if truthy username && truthy password then
    let o := APIHandler._authenticate st (username.getD "") (password.getD "") now resp
    { requests := o.requests, state := o.state, result := o.result.map fun _ => () }
  else if truthy api_key then
    { requests := [], state := { st with api_key := api_key }, result := .ok () }
  else if truthy username || truthy password then
    { requests := [], state := st
      result := .error (.valueError
        "Both username and password must be provided together for authentication.") }
  else
    { requests := [], state := st
      result := .error (.valueError
        "No authentication credentials provided. Please provide either username/password or an API key.") }

/-- The refresh request sent at api_handler.py line 82. -/
def refreshRequest (st : APIHandler) : HttpRequest :=
  { method := "POST"
    url := pyStr st.base_url ++ "/auth/refresh"
    body := [("client_id", "tics-client-" ++ st.client_id)]
    authHeader := st.authHeader }

/-- `APIHandler.refresh_token` (api_handler.py lines 72-100).  `now` models
`time()` at line 78 and `now2` the second `time()` at line 90; `resp` is the
response to the refresh POST when it is sent.  Reading an attribute that was
never assigned raises `AttributeError` (line 79 on a key-identity client). -/
def APIHandler.refresh_token (st : APIHandler) (now now2 : Int)
    (resp : HttpResponse) : Outcome Unit :=
  match st.token_issue_time with
  | none =>
    { requests := [], state := st, result := .error (.attributeError "token_issue_time") }
  | some issue =>
    match st.token_expiry with
    | none =>
      { requests := [], state := st, result := .error (.attributeError "token_expiry") }
    | some expiry =>
      if now ≥ issue + expiry - 60 then
        let req := refreshRequest st
        if resp.status = 200 then
          if resp.success then
            { requests := [req]
              state := { st with
                token := some resp.token
                token_expiry := some resp.expires_in
                token_issue_time := some now2
                authHeader := some ("Bearer " ++ resp.token) }
              result := .ok () }
          else
            { requests := [req], state := st, result := .ok () }
        else
          { requests := [req], state := st
            result := .error (.exception ("Token refresh failed: " ++ toString resp.status)) }
      else
        { requests := [], state := st, result := .ok () }

/-- `APIHandler.get_data` (api_handler.py lines 102-106): issues the GET through
the shared session and returns the parsed response, modelled as the whole
response record. -/
def APIHandler.get_data (st : APIHandler) (endpoint : String)
    (resp : HttpResponse) : Outcome HttpResponse :=
  { requests := [{ method := "GET"
                   url := pyStr st.base_url ++ "/api/" ++ endpoint
                   body := []
                   authHeader := st.authHeader }]
    state := st
    result := .ok resp }

/-- Token bookkeeping invariant: whenever a token is stored, its issue time and
expiry are stored too and the session's `Authorization` header is exactly
`Bearer {token}`. -/
def TokenInv (st : APIHandler) : Prop :=
  match st.token with
  | none => True
  | some t =>
    st.token_issue_time.isSome ∧ st.token_expiry.isSome
      ∧ st.authHeader = some ("Bearer " ++ t)

/-- A 200/success login or refresh response used as a concrete test vector. -/
def okResp : HttpResponse :=
  { status := 200, success := true, token := "tok1", expires_in := 3600,
    username := "alice", text := "" }

/-- A failing (HTTP 500) response with a distinctive body text. -/
def errResp : HttpResponse :=
  { status := 500, success := false, token := "", expires_in := 0,
    username := "", text := "server boom" }

/-- A credential-identity state holding a token, obtained from a successful login. -/
def validState : APIHandler :=
  ((APIHandler.mkBase (some "http://h") "c")._authenticate "u" "p" 100 okResp).state

/-- C3: on a 200 login response with `success = true`, `_authenticate` stores the
response token, sets the issue time to the current clock reading, stores the
response expiry, installs `Bearer {token}` on the session, and returns the
username/timeToExpire pair built from the response. -/
theorem C3_login_success (st : APIHandler) (u p : String) (now : Int)
    (resp : HttpResponse) (hs : resp.status = 200) (hok : resp.success = true) :
    (st._authenticate u p now resp).state.token = some resp.token
    ∧ (st._authenticate u p now resp).state.token_issue_time = some now
    ∧ (st._authenticate u p now resp).state.token_expiry = some resp.expires_in
    ∧ (st._authenticate u p now resp).state.authHeader = some ("Bearer " ++ resp.token)
    ∧ (st._authenticate u p now resp).result =
        .ok { username := resp.username, timeToExpire := resp.expires_in } := by
  simp [APIHandler._authenticate, hs, hok]

/-- Witness for C3 at a concrete successful login. -/
theorem C3_witness :
    okResp.status = 200 ∧ okResp.success = true
    ∧ ((APIHandler.mkBase (some "http://h") "c")._authenticate "u" "p" 5 okResp).state.token
        = some "tok1" :=
  ⟨rfl, rfl,
    (C3_login_success (APIHandler.mkBase (some "http://h") "c") "u" "p" 5 okResp rfl rfl).1⟩

/-- C5: on a token-holding client, `refresh_token` is a silent no-op (no request,
state unchanged) when `now < issueTime + expiry - 60`, and otherwise sends
exactly one POST to `{baseUrl}/auth/refresh` whose body is the single
`client_id: tics-client-{clientId}` pair. -/
theorem C5_refresh_gate (st : APIHandler) (now now2 : Int) (resp : HttpResponse)
    (issue expiry : Int) (hi : st.token_issue_time = some issue)
    (he : st.token_expiry = some expiry) :
    (now < issue + expiry - 60 →
      st.refresh_token now now2 resp = { requests := [], state := st, result := .ok () })
    ∧ (now ≥ issue + expiry - 60 →
      (st.refresh_token now now2 resp).requests = [refreshRequest st]
      ∧ refreshRequest st =
          { method := "POST", url := pyStr st.base_url ++ "/auth/refresh",
            body := [("client_id", "tics-client-" ++ st.client_id)],
            authHeader := st.authHeader }) := by
  constructor
  · intro h
    have hc : ¬ (now ≥ issue + expiry - 60) := by omega
    simp [APIHandler.refresh_token, hi, he, hc]
  · intro h
    refine ⟨?_, rfl⟩
    by_cases h200 : resp.status = 200 <;> by_cases hok : resp.success = true <;>
      simp [APIHandler.refresh_token, hi, he, h, h200, hok]

/-- Witness for C5 at a concrete fresh token (no request) case. -/
theorem C5_witness :
    validState.token_issue_time = some 100 ∧ validState.token_expiry = some 3600
    ∧ (100 : Int) < 100 + 3600 - 60
    ∧ validState.refresh_token 100 101 okResp =
        { requests := [], state := validState, result := .ok () } :=
  ⟨rfl, rfl, by norm_num,
    (C5_refresh_gate validState 100 101 okResp 100 3600 rfl rfl).1 (by norm_num)⟩

/-- C6: a due refresh answered 200 with `success = false` raises nothing and
leaves the whole state (token, issue time, expiry, Authorization header)
unchanged; the stale token is retained. -/
theorem C6_soft_refresh_failure (st : APIHandler) (now now2 : Int)
    (resp : HttpResponse) (issue expiry : Int)
    (hi : st.token_issue_time = some issue) (he : st.token_expiry = some expiry)
    (hdue : now ≥ issue + expiry - 60)
    (hs : resp.status = 200) (hf : resp.success = false) :
    st.refresh_token now now2 resp =
      { requests := [refreshRequest st], state := st, result := .ok () } := by
  simp [APIHandler.refresh_token, hi, he, hdue, hs, hf]

/-- Witness for C6 at a concrete soft refresh failure. -/
theorem C6_witness :
    validState.refresh_token 5000 5001 { errResp with status := 200 } =
      { requests := [refreshRequest validState], state := validState, result := .ok () } :=
  C6_soft_refresh_failure validState 5000 5001 { errResp with status := 200 }
    100 3600 rfl rfl (by norm_num) rfl rfl

/-- C7: a due refresh answered with a non-200 status raises an exception whose
message carries the status code, and leaves the state unchanged. -/
theorem C7_refresh_http_failure (st : APIHandler) (now now2 : Int)
    (resp : HttpResponse) (issue expiry : Int)
    (hi : st.token_issue_time = some issue) (he : st.token_expiry = some expiry)
    (hdue : now ≥ issue + expiry - 60) (hs : resp.status ≠ 200) :
    st.refresh_token now now2 resp =
      { requests := [refreshRequest st], state := st,
        result := .error (.exception ("Token refresh failed: " ++ toString resp.status)) } := by
  simp [APIHandler.refresh_token, hi, he, hdue, hs]

/-- Witness for C7 at a concrete HTTP 500 refresh failure. -/
theorem C7_witness :
    validState.refresh_token 5000 5001 errResp =
      { requests := [refreshRequest validState], state := validState,
        result := .error (.exception "Token refresh failed: 500") } :=
  C7_refresh_http_failure validState 5000 5001 errResp 100 3600 rfl rfl
    (by norm_num) (by decide)

theorem tokenInv_authenticate (st : APIHandler) (u p : String) (now : Int)
    (resp : HttpResponse) (h : TokenInv st) :
    TokenInv (st._authenticate u p now resp).state := by
  unfold APIHandler._authenticate
  by_cases h200 : resp.status = 200
  · by_cases hok : resp.success = true
    · simp only [h200, hok, if_true, if_pos]
      unfold TokenInv
      simp
    · simp only [h200, hok, if_true, if_false, Bool.false_eq_true, if_neg]
      exact h
  · simp only [h200, if_neg, if_false]
    exact h

theorem tokenInv_refresh (st : APIHandler) (now now2 : Int) (resp : HttpResponse)
    (h : TokenInv st) : TokenInv (st.refresh_token now now2 resp).state := by
  unfold APIHandler.refresh_token
  cases hi : st.token_issue_time with
  | none => exact h
  | some issue =>
    cases he : st.token_expiry with
    | none => exact h
    | some expiry =>
      by_cases hdue : now ≥ issue + expiry - 60
      · by_cases h200 : resp.status = 200
        · by_cases hok : resp.success = true
          · simp only [hdue, h200, hok, if_true, if_pos]
            unfold TokenInv
            simp
          · simp only [hdue, h200, hok, if_pos, if_neg, Bool.false_eq_true, if_false]
            exact h
        · simp only [hdue, h200, if_pos, if_neg, if_false]
          exact h
      · simp only [hdue, if_neg]
        exact h

theorem tokenInv_init (base_url username password api_key : Option String)
    (client_id : String) (now : Int) (resp : HttpResponse) :
    TokenInv (APIHandler.init base_url username password api_key client_id now resp).state := by
  unfold APIHandler.init
  by_cases hc : (truthy username && truthy password) = true
  · simp only [hc, if_pos]
    exact tokenInv_authenticate _ _ _ _ _ trivial
  · by_cases hk : truthy api_key = true
    · simp only [hc, hk, if_neg, if_pos, Bool.false_eq_true, if_false, if_true]
      trivial
    · by_cases ho : (truthy username || truthy password) = true
      · simp only [hc, hk, ho, Bool.false_eq_true, if_false, if_true]
        trivial
      · simp only [hc, hk, ho, Bool.false_eq_true, if_false]
        trivial

/-- C10: the token bookkeeping invariant (token present implies issue time and
expiry present and the session Authorization header equal to `Bearer {token}`)
is preserved by construction, by `_authenticate`, by `refresh_token` and by
`get_data`. -/
theorem C10_token_invariant (st : APIHandler) (u p : String)
    (base_url username password api_key : Option String)
    (client_id endpoint : String) (now now2 : Int) (resp resp2 : HttpResponse)
    (h : TokenInv st) :
    TokenInv (APIHandler.init base_url username password api_key client_id now resp).state
    ∧ TokenInv (st._authenticate u p now resp).state
    ∧ TokenInv (st.refresh_token now now2 resp).state
    ∧ TokenInv (st.get_data endpoint resp2).state :=
  ⟨tokenInv_init base_url username password api_key client_id now resp,
   tokenInv_authenticate st u p now resp h,
   tokenInv_refresh st now now2 resp h,
   h⟩

/-- Witness for C10 at a concrete authenticated state. -/
theorem C10_witness :
    TokenInv validState
    ∧ (TokenInv (APIHandler.init none none none (some "k") "c" 0 okResp).state
       ∧ TokenInv (validState._authenticate "u" "p" 7 okResp).state
       ∧ TokenInv (validState.refresh_token 7 8 okResp).state
       ∧ TokenInv (validState.get_data "e" okResp).state) := by
  have hst : TokenInv validState := by
    unfold TokenInv
    exact ⟨rfl, rfl, rfl⟩
  exact ⟨hst, C10_token_invariant validState "u" "p" none none none (some "k")
    "c" "e" 7 8 okResp okResp hst⟩

/-- C1 counterexample: supplying username, password and api_key all at once does
not raise a configuration error — the constructor takes the credential branch,
performs the login network call and succeeds. -/
theorem C1_counterexample :
    (APIHandler.init (some "http://h") (some "u") (some "p") (some "k")
      "0123456789ab" 100 okResp).result = .ok ()
    ∧ (APIHandler.init (some "http://h") (some "u") (some "p") (some "k")
      "0123456789ab" 100 okResp).requests.length = 1 := by
  constructor <;> rfl

/-- C1 (amended): with neither identity supplied the constructor raises the
configuration ValueError with no network call; with both a credential pair and
an api_key supplied, no configuration error is raised — credentials take
precedence, the api_key is ignored (the outcome equals the one with no
api_key), and the login network call is issued. -/
theorem C1_identity_dispatch (base_url username password api_key : Option String)
    (client_id : String) (now : Int) (resp : HttpResponse) :
    ((truthy username = false ∧ truthy password = false ∧ truthy api_key = false) →
      APIHandler.init base_url username password api_key client_id now resp =
        { requests := [], state := APIHandler.mkBase base_url client_id
          result := .error (.valueError
            "No authentication credentials provided. Please provide either username/password or an API key.") })
    ∧ ((truthy username = true ∧ truthy password = true) →
      APIHandler.init base_url username password api_key client_id now resp =
        APIHandler.init base_url username password none client_id now resp
      ∧ (APIHandler.init base_url username password api_key client_id now resp).requests.length
          = 1) := by
  constructor
  · rintro ⟨hu, hp, hk⟩
    simp [APIHandler.init, hu, hp, hk]
  · rintro ⟨hu, hp⟩
    refine ⟨by simp [APIHandler.init, hu, hp], ?_⟩
    by_cases h200 : resp.status = 200 <;> by_cases hok : resp.success = true <;>
      simp [APIHandler.init, APIHandler._authenticate, hu, hp, h200, hok]

/-- Witness for C1 at the concrete no-identity input. -/
theorem C1_witness :
    (truthy (none : Option String) = false ∧ truthy (none : Option String) = false
      ∧ truthy (none : Option String) = false)
    ∧ APIHandler.init none none none none "c" 0 okResp =
        { requests := [], state := APIHandler.mkBase none "c"
          result := .error (.valueError
            "No authentication credentials provided. Please provide either username/password or an API key.") } :=
  ⟨⟨rfl, rfl, rfl⟩,
    (C1_identity_dispatch none none none none "c" 0 okResp).1 ⟨rfl, rfl, rfl⟩⟩

/-- C2 counterexample: on a key-identity client the GET issued by `get_data`
carries no Authorization header at all — in particular not `Bearer k`. -/
theorem C2_counterexample :
    (((APIHandler.init (some "http://h") none none (some "k") "c" 0 okResp).state.get_data
        "widgets" okResp).requests.map HttpRequest.authHeader) = [none]
    ∧ (none : Option String) ≠ some "Bearer k" := by
  exact ⟨rfl, by decide⟩

/-- C2 (amended): key-based construction stores the key and performs no network
call and raises nothing, but the key is never installed as a bearer header —
the session Authorization header stays absent and subsequent requests carry no
Authorization header. -/
theorem C2_key_identity (base_url username password api_key : Option String)
    (client_id endpoint : String) (now : Int) (resp resp2 : HttpResponse)
    (hcred : (truthy username && truthy password) = false)
    (hk : truthy api_key = true) :
    (APIHandler.init base_url username password api_key client_id now resp).requests = []
    ∧ (APIHandler.init base_url username password api_key client_id now resp).result = .ok ()
    ∧ (APIHandler.init base_url username password api_key client_id now resp).state.api_key
        = api_key
    ∧ (APIHandler.init base_url username password api_key client_id now resp).state.authHeader
        = none
    ∧ (((APIHandler.init base_url username password api_key client_id now resp).state.get_data
          endpoint resp2).requests.map HttpRequest.authHeader) = [none] := by
  simp [APIHandler.init, hcred, hk, APIHandler.get_data, APIHandler.mkBase]

/-- Witness for C2 at a concrete key-identity client. -/
theorem C2_witness :
    ((truthy (none : Option String) && truthy (none : Option String)) = false
      ∧ truthy (some "k") = true)
    ∧ (APIHandler.init (some "http://h") none none (some "k") "c" 0 okResp).requests = [] :=
  ⟨⟨rfl, rfl⟩,
    (C2_key_identity (some "http://h") none none (some "k") "c" "widgets" 0
      okResp okResp rfl rfl).1⟩

/-- C4 counterexample: on a non-200 login response the raised message is
exactly "Authentication failed: 500" — it does not carry the response text,
since responses differing only in their text raise the identical error. -/
theorem C4_counterexample :
    ((APIHandler.mkBase (some "http://h") "c")._authenticate "u" "p" 0 errResp).result
      = .error (.exception "Authentication failed: 500")
    ∧ ((APIHandler.mkBase (some "http://h") "c")._authenticate "u" "p" 0 errResp).result
      = ((APIHandler.mkBase (some "http://h") "c")._authenticate "u" "p" 0
          { errResp with text := "a completely different body" }).result := by
  constructor <;> rfl

/-- C4 (amended): every non-200 or `success = false` login response makes
`_authenticate` raise an exception — in the non-200 case with a message
carrying the status code only (the response text is logged, not carried) —
and leaves the token, issue time, expiry and Authorization header untouched,
so a client with no prior token still holds none. -/
theorem C4_login_failure (st : APIHandler) (u p : String) (now : Int)
    (resp : HttpResponse) (h : resp.status ≠ 200 ∨ resp.success = false) :
    (∃ msg, (st._authenticate u p now resp).result = .error (.exception msg))
    ∧ (resp.status ≠ 200 →
        (st._authenticate u p now resp).result =
          .error (.exception ("Authentication failed: " ++ toString resp.status)))
    ∧ (st._authenticate u p now resp).state.token = st.token
    ∧ (st._authenticate u p now resp).state.token_issue_time = st.token_issue_time
    ∧ (st._authenticate u p now resp).state.token_expiry = st.token_expiry
    ∧ (st._authenticate u p now resp).state.authHeader = st.authHeader := by
  by_cases h200 : resp.status = 200
  · have hf : resp.success = false := by
      rcases h with h | h
      · exact absurd h200 h
      · exact h
    refine ⟨⟨"Authentication failed: API returned success=False.", ?_⟩, ?_, ?_, ?_, ?_, ?_⟩ <;>
      simp [APIHandler._authenticate, h200, hf]
  · refine ⟨⟨"Authentication failed: " ++ toString resp.status, ?_⟩, ?_, ?_, ?_, ?_, ?_⟩ <;>
      simp [APIHandler._authenticate, h200]

/-- Witness for C4 at a concrete HTTP 500 login response. -/
theorem C4_witness :
    (errResp.status ≠ 200 ∨ errResp.success = false)
    ∧ ((APIHandler.mkBase (some "http://h") "c")._authenticate "u" "p" 0 errResp).state.token
        = none :=
  ⟨Or.inl (by decide),
    ((C4_login_failure (APIHandler.mkBase (some "http://h") "c") "u" "p" 0 errResp
      (Or.inl (by decide))).2.2.1).trans rfl⟩

/-- C8 counterexample: calling `refresh_token` on a key-identity client does
fail — it raises AttributeError on `token_issue_time` instead of being a
successful no-op. -/
theorem C8_counterexample :
    ((APIHandler.init (some "http://h") none none (some "k2") "c" 0 okResp).state.refresh_token
        50 51 okResp).result = .error (.attributeError "token_issue_time") := by
  rfl

/-- C8 (amended): on a key-identity client (whose `token_issue_time` was never
assigned) `refresh_token` performs no network call and changes no state, but it
does fail: it raises AttributeError reading `token_issue_time`. -/
theorem C8_key_refresh (base_url api_key : Option String) (client_id : String)
    (now0 now now2 : Int) (resp0 resp : HttpResponse) (hk : truthy api_key = true) :
    (APIHandler.init base_url none none api_key client_id now0 resp0).state.token_issue_time
      = none
    ∧ ∀ st : APIHandler, st.token_issue_time = none →
        st.refresh_token now now2 resp =
          { requests := [], state := st, result := .error (.attributeError "token_issue_time") } := by
  constructor
  · simp [APIHandler.init, show truthy none = false from rfl, hk, APIHandler.mkBase]
  · intro st hi
    simp [APIHandler.refresh_token, hi]

/-- Witness for C8 at a concrete key-identity client. -/
theorem C8_witness :
    truthy (some "k") = true
    ∧ ((APIHandler.init none none none (some "k") "c" 0 okResp).state.refresh_token 1 2 okResp)
      = { requests := [],
          state := (APIHandler.init none none none (some "k") "c" 0 okResp).state,
          result := .error (.attributeError "token_issue_time") } := by
  have h := C8_key_refresh none (some "k") "c" 0 1 2 okResp okResp rfl
  exact ⟨rfl, h.2 _ h.1⟩

/-- C9: with no base url supplied, the handler keeps `None` as its base url and
`get_data "widgets"` targets "None/api/widgets" — not the documented default
`default_url` (127.0.0.1:8000), which the code declares but never uses. -/
theorem C9_default_url_unused :
    (((APIHandler.init none none none (some "k") "c" 0 okResp).state.get_data
        "widgets" okResp).requests.map HttpRequest.url) = ["None/api/widgets"]
    ∧ "None/api/widgets" ≠ default_url ++ "/api/widgets" := by
  refine ⟨rfl, by decide⟩
